import Mathlib

/-!
Shallow embedding of `src/googlewrapper.py` (class `GoogleSheetsWrapper`).

The Python class holds a spreadsheet id and two cached dimension fields
`row_hei` / `row_wid` (both `None` until the first successful read), and
exposes four operations, each a single remote call optionally followed by a
refreshing `read_data()`:

  * `create_data(values, valueInputOption)` - update at range `a{row_hei+1}`,
    then `read_data()`;
  * `read_data(range)` - get values, build a `pd.DataFrame`, store its shape;
  * `update_data(range, values, valueInputOption)` - update at `range`, then
    `read_data()`;
  * `delete_data(range)` - update at `range` with one row of `row_wid` empty
    strings, then `read_data()`.

Each method catches `HttpError` from the remote call and returns the error
object as its result value.  The remote service (Google Sheets API v4) is an
external collaborator: it is modelled here as a state-threading pair of
functions (`Service`), with a concrete instance (`remoteService`) giving the
published contract on a sheet modelled as a list of rows.  Every method also
returns the list of remote requests it issued, the observable trace.
-/

/-- A cell value; the wrapper only ever writes strings. -/
abbrev Cell := String

/-- The error object raised by the googleapiclient on a failed remote call
(`HttpError`); carries the service's error detail. -/
structure HttpError where
  detail : String
deriving Repr, DecidableEq

/-- The opaque success-metadata dictionary returned by a values-update call. -/
structure UpdateResp where
  payload : String
deriving Repr, DecidableEq

/-- A remote request issued by the wrapper: either
`values().get(spreadsheetId, range).execute()` or
`values().update(spreadsheetId, range, valueInputOption, body).execute()`. -/
inductive Request where
  | getValues (spreadsheetId : String) (range : String)
  | updateValues (spreadsheetId : String) (range : String)
      (valueInputOption : String) (values : List (List Cell))
deriving Repr, DecidableEq

/-- The remote spreadsheet service, threading an abstract remote state `σ`.
`get` answers a get-values request with the row list (or an `HttpError`);
`update` answers an update-values request with its success metadata (or an
`HttpError`). -/
structure Service (σ : Type) where
  get : σ → String → σ × Except HttpError (List (List Cell))
  update : σ → String → String → List (List Cell) → σ × Except HttpError UpdateResp

/-- The mutable attributes of the Python object: the spreadsheet id and the
two cached dimensions, `None` (`none`) until the first successful read. -/
structure GoogleSheetsWrapper where
  SPREADSHEET_ID : String
  row_hei : Option Nat
  row_wid : Option Nat
deriving Repr, DecidableEq

/-- `__init__`: dimensions start unset (`self.row_hei = None`,
`self.row_wid = None`).  Credential acquisition is out of scope. -/
def initWrapper (spreadsheet_id : String) : GoogleSheetsWrapper :=
  ⟨spreadsheet_id, none, none⟩

/-- `setrow_hei`. -/
def setrow_hei (self : GoogleSheetsWrapper) (row_hei : Option Nat) :
    GoogleSheetsWrapper :=
  { self with row_hei := row_hei }

/-- `setrow_wid`. -/
def setrow_wid (self : GoogleSheetsWrapper) (row_wid : Option Nat) :
    GoogleSheetsWrapper :=
  { self with row_wid := row_wid }

/-- `pd.DataFrame(values)`: a tabular result, kept as the raw row-major list
(rows may be jagged). -/
structure DataFrame where
  values : List (List Cell)
deriving Repr, DecidableEq

/-- `df.shape`: pandas gives `(number of rows, widest row's width)` for a
frame built from a (possibly jagged) list of rows, and `(0, 0)` for `[]`. -/
def DataFrame.shape (df : DataFrame) : Nat × Nat :=
  (df.values.length, (df.values.map List.length).foldr Nat.max 0)

/-- Result of `read_data`: a `pd.DataFrame`, or the caught `HttpError`
returned as the result value. -/
inductive ReadResult where
  | frame : DataFrame → ReadResult
  | error : HttpError → ReadResult
deriving Repr, DecidableEq

/-- Result of a mutating method: the remote success response, or the caught
`HttpError` returned as the result value. -/
inductive MutResult where
  | response : UpdateResp → MutResult
  | error : HttpError → MutResult
deriving Repr, DecidableEq

/-- Outcome of a Python call: a normal return, or an uncaught `TypeError`
(the `except` clauses catch only `HttpError`). -/
inductive PyResult (α : Type) where
  | ok : α → PyResult α
  | typeError : PyResult α
deriving Repr, DecidableEq

/-- The default range of `read_data` (`range: str = 'Sheet1!a:z'`). -/
def defaultRange : String := "Sheet1!a:z"

/-- `read_data(self, range)`: issues one get-values request; on success builds
`pd.DataFrame(values)`, stores its shape via `setrow_hei` / `setrow_wid` and
returns the frame; on `HttpError` returns the error with the cached
dimensions untouched.  Returns (remote state, object state, issued requests,
result). -/
def read_data {σ : Type} (svc : Service σ) (s : σ) (self : GoogleSheetsWrapper)
    (range : String) :
    σ × GoogleSheetsWrapper × List Request × ReadResult :=
  let req := Request.getValues self.SPREADSHEET_ID range
  match svc.get s range with
  | (s1, .ok values) =>
      let df : DataFrame := ⟨values⟩
      let self := setrow_hei self (some df.shape.1)
      let self := setrow_wid self (some df.shape.2)
      (s1, self, [req], .frame df)
  | (s1, .error err) => (s1, self, [req], .error err)

/-- `create_data(self, values, valueInputOption)`: wraps `values` as the
single-row batch `[values]` and updates range `f"a{self.row_hei+1}"`; when
`row_hei` is `None` the addition `None + 1` raises an uncaught `TypeError`
before any request is issued.  On update success it refreshes with
`self.read_data()` (default range) and returns the update response; on
`HttpError` it returns the error. -/
def create_data {σ : Type} (svc : Service σ) (s : σ) (self : GoogleSheetsWrapper)
    (values : List Cell) (valueInputOption : String) :
    σ × GoogleSheetsWrapper × List Request × PyResult MutResult :=
  match self.row_hei with
  | none => (s, self, [], .typeError)
  | some row_hei =>
      let rng := "a" ++ toString (row_hei + 1)
      let req := Request.updateValues self.SPREADSHEET_ID rng valueInputOption [values]
      match svc.update s rng valueInputOption [values] with
      | (s1, .ok result) =>
          match read_data svc s1 self defaultRange with
          | (s2, self2, reqs, _) => (s2, self2, req :: reqs, .ok (.response result))
      | (s1, .error err) => (s1, self, [req], .ok (.error err))

/-- `update_data(self, range, values, valueInputOption)`: wraps `values` as
`[values]`, updates the caller-supplied `range`, then refreshes with
`self.read_data()`; on `HttpError` returns the error. -/
def update_data {σ : Type} (svc : Service σ) (s : σ) (self : GoogleSheetsWrapper)
    (range : String) (values : List Cell) (valueInputOption : String) :
    σ × GoogleSheetsWrapper × List Request × PyResult MutResult :=
  let req := Request.updateValues self.SPREADSHEET_ID range valueInputOption [values]
  match svc.update s range valueInputOption [values] with
  | (s1, .ok result) =>
      match read_data svc s1 self defaultRange with
      | (s2, self2, reqs, _) => (s2, self2, req :: reqs, .ok (.response result))
  | (s1, .error err) => (s1, self, [req], .ok (.error err))

/-- `delete_data(self, range)`: builds the single-row batch
`[[""] * self.row_wid]` (an uncaught `TypeError` when `row_wid` is `None`),
updates `range` with `valueInputOption="USER_ENTERED"`, then refreshes with
`self.read_data()`; on `HttpError` returns the error. -/
def delete_data {σ : Type} (svc : Service σ) (s : σ) (self : GoogleSheetsWrapper)
    (range : String) :
    σ × GoogleSheetsWrapper × List Request × PyResult MutResult :=
  match self.row_wid with
  | none => (s, self, [], .typeError)
  | some row_wid =>
      let vals := [List.replicate row_wid ""]
      let req := Request.updateValues self.SPREADSHEET_ID range "USER_ENTERED" vals
      match svc.update s range "USER_ENTERED" vals with
      | (s1, .ok result) =>
          match read_data svc s1 self defaultRange with
          | (s2, self2, reqs, _) => (s2, self2, req :: reqs, .ok (.response result))
      | (s1, .error err) => (s1, self, [req], .ok (.error err))

/-!
Model of the remote collaborator: a sheet is a list of rows; A1-style ranges
are parsed to a structured span; an update writes its rows starting at the
span's first cell (extending the sheet as needed); a get returns the rows of
the span clipped to its columns.
-/

/-- A sheet held by the remote service: a row-major list of rows. -/
abbrev RemoteSheet := List (List Cell)

/-- Column letters to a 1-indexed column number (`a` is 1, `z` is 26,
`aa` is 27). -/
def colOfLetters (cs : List Char) : Nat :=
  cs.foldl (fun acc c => acc * 26 + (c.toLower.toNat - 96)) 0

/-- One endpoint of an A1-style range: a 1-indexed column, and a 1-indexed
row when present (`a` alone means the whole column). -/
structure CellRef where
  col : Nat
  row : Option Nat
deriving Repr, DecidableEq

/-- Split a character list on a separator character. -/
def splitOnChar (sep : Char) (cs : List Char) : List (List Char) :=
  match cs with
  | [] => [[]]
  | c :: rest =>
      let r := splitOnChar sep rest
      if c = sep then [] :: r
      else
        match r with
        | [] => [[c]]
        | g :: gs => (c :: g) :: gs

/-- Decimal digit characters to the number they denote. -/
def digitsToNat (cs : List Char) : Nat :=
  cs.foldl (fun acc c => acc * 10 + (c.toNat - 48)) 0

/-- Parse one endpoint such as `a`, `a4` or `d2`. -/
def parseCellRef (cs : List Char) : Option CellRef :=
  let letters := cs.takeWhile Char.isAlpha
  let rest := cs.dropWhile Char.isAlpha
  if letters.isEmpty then none
  else if rest.isEmpty then some ⟨colOfLetters letters, none⟩
  else if rest.all Char.isDigit then
    let r := digitsToNat rest
    if r = 0 then none else some ⟨colOfLetters letters, some r⟩
  else none

/-- A parsed A1-style range: its first endpoint and, for spans written with
a colon, its last endpoint. -/
structure RangeSpec where
  first : CellRef
  last : Option CellRef
deriving Repr, DecidableEq

/-- Parse an A1-style range string, ignoring an optional `Sheet!` qualifier:
`a4`, `Sheet1!a:z`, `Sheet1!a2:d2`, ... -/
def parseRange (range : String) : Option RangeSpec :=
  let body :=
    match splitOnChar '!' range.toList with
    | [b] => b
    | [_, b] => b
    | _ => []
  match splitOnChar ':' body with
  | [a] =>
      match parseCellRef a with
      | some c => some ⟨c, none⟩
      | none => none
  | [a, b] =>
      match parseCellRef a, parseCellRef b with
      | some c1, some c2 => some ⟨c1, some c2⟩
      | _, _ => none
  | _ => none

/-- Overwrite the cells of one row starting at 1-indexed column `c` with
`vals`, padding the row with empty cells if it is too short; cells outside
the written span keep their old values. -/
def writeRow (old : List Cell) (c : Nat) (vals : List Cell) : List Cell :=
  let old := old ++ List.replicate ((c - 1 + vals.length) - old.length) ""
  old.take (c - 1) ++ vals ++ old.drop (c - 1 + vals.length)

/-- Apply an update-values write of `rows` starting at 1-indexed row `r`,
column `c`: the sheet is extended with empty rows as needed and the touched
rows are overwritten cell-wise; no row is inserted or removed. -/
def applyWrite (sheet : RemoteSheet) (r c : Nat) (rows : List (List Cell)) :
    RemoteSheet :=
  let sheet := sheet ++ List.replicate ((r - 1 + rows.length) - sheet.length) []
  sheet.take (r - 1)
    ++ List.zipWith (fun old new => writeRow old c new)
        ((sheet.drop (r - 1)).take rows.length) rows
    ++ sheet.drop (r - 1 + rows.length)

/-- Clip one row to the columns `c1..c2` (1-indexed, inclusive). -/
def sliceCols (c1 c2 : Nat) (row : List Cell) : List Cell :=
  (row.take c2).drop (c1 - 1)

/-- Answer a get-values request over a parsed range: the rows of the row
span, each clipped to the range's columns. -/
def getValuesSpec (sheet : RemoteSheet) (sp : RangeSpec) : List (List Cell) :=
  let r1 := sp.first.row.getD 1
  let rows :=
    match sp.last with
    | some l =>
        match l.row with
        | some r2 => (sheet.take r2).drop (r1 - 1)
        | none => sheet.drop (r1 - 1)
    | none =>
        match sp.first.row with
        | some r => (sheet.take r).drop (r - 1)
        | none => sheet
  let c2 :=
    match sp.last with
    | some l => l.col
    | none => sp.first.col
  rows.map (sliceCols sp.first.col c2)

/-- The remote service's answer to a get-values request; an unparsable range
is a client error. -/
def serveGet (sheet : RemoteSheet) (range : String) :
    RemoteSheet × Except HttpError (List (List Cell)) :=
  match parseRange range with
  | some sp => (sheet, .ok (getValuesSpec sheet sp))
  | none => (sheet, .error ⟨"Unable to parse range: " ++ range⟩)

/-- The remote service's answer to an update-values request; the sheet is
rewritten by `applyWrite` at the range's first cell. -/
def serveUpdate (sheet : RemoteSheet) (range : String)
    (_valueInputOption : String) (vals : List (List Cell)) :
    RemoteSheet × Except HttpError UpdateResp :=
  match parseRange range with
  | some sp =>
      (applyWrite sheet (sp.first.row.getD 1) sp.first.col vals,
        .ok ⟨"updatedRange " ++ range⟩)
  | none => (sheet, .error ⟨"Unable to parse range: " ++ range⟩)

/-- The healthy remote service on a `RemoteSheet` state. -/
def remoteService : Service RemoteSheet :=
  { get := serveGet, update := serveUpdate }

/-- A faulty remote: updates are served normally, but every get-values
request fails (network error during the trailing refresh). -/
def flakyService : Service RemoteSheet :=
  { get := fun s _ => (s, .error ⟨"backendError"⟩), update := serveUpdate }

/-!
Concrete fixtures: the spec's running scenario, a 3-row 4-column sheet
(after an append, a 4-row one), and a client that has just read it.
-/

/-- The spec's scenario sheet: 3 rows, 4 columns. -/
def sheet34 : RemoteSheet :=
  [["a1","b1","c1","d1"], ["a2","b2","c2","d2"], ["a3","b3","c3","d3"]]

/-- A client that has read `sheet34`: `row_hei = 3`, `row_wid = 4`. -/
def self34 : GoogleSheetsWrapper := ⟨"sid", some 3, some 4⟩

/-- The scenario sheet after appending `["x","y","z","w"]` at row 4. -/
def sheet44 : RemoteSheet := sheet34 ++ [["x","y","z","w"]]

/-- A client that has read `sheet44`: `row_hei = 4`, `row_wid = 4`. -/
def self44 : GoogleSheetsWrapper := ⟨"sid", some 4, some 4⟩

/-- Folding `Nat.max` over a list bounded by `b` stays below `b`. -/
theorem foldr_max_le_of_forall {l : List Nat} {b : Nat} (h : ∀ x ∈ l, x ≤ b) :
    l.foldr Nat.max 0 ≤ b := by
  induction l with
  | nil => simp
  | cons x xs ih =>
      simp only [List.foldr_cons]
      exact Nat.max_le.mpr ⟨h x (List.mem_cons_self x xs), ih fun y hy => h y (List.mem_cons_of_mem x hy)⟩

/-- A row clipped to columns 1..26 has at most 26 cells. -/
theorem sliceCols_az_length_le (row : List Cell) : (sliceCols 1 26 row).length ≤ 26 := by
  simp [sliceCols]

/-- A get over the span `a:z` (columns 1..26, all rows) yields a table whose
widest row is at most 26 cells wide. -/
theorem getValuesSpec_az_width_le (sheet : RemoteSheet) :
    ((getValuesSpec sheet ⟨⟨1, none⟩, some ⟨26, none⟩⟩).map List.length).foldr Nat.max 0 ≤ 26 := by
  apply foldr_max_le_of_forall
  intro x hx
  simp only [getValuesSpec, List.drop_zero, List.mem_map] at hx
  obtain ⟨row, hrow, rfl⟩ := hx
  obtain ⟨r, _, rfl⟩ := hrow
  exact sliceCols_az_length_le r

/-- The default range parses to the span `a:z`: columns 1..26, all rows. -/
theorem parseRange_defaultRange :
    parseRange defaultRange = some ⟨⟨1, none⟩, some ⟨26, none⟩⟩ := by decide

/-- C1: for every successful `read_data(range)` call the method returns the
frame built from the remote row list, stores `row_hei` = the frame's row
count and `row_wid` = the frame's column count, where the frame's shape is
(number of rows, widest row's width) — the table library's natural shape on
jagged rows. -/
theorem read_data_sets_shape {σ : Type} (svc : Service σ) (s s1 : σ)
    (self : GoogleSheetsWrapper) (range : String) (values : List (List Cell))
    (h : svc.get s range = (s1, .ok values)) :
    read_data svc s self range
      = (s1,
         { self with row_hei := some (DataFrame.shape ⟨values⟩).1,
                     row_wid := some (DataFrame.shape ⟨values⟩).2 },
         [Request.getValues self.SPREADSHEET_ID range], .frame ⟨values⟩)
    ∧ (DataFrame.shape ⟨values⟩).1 = values.length
    ∧ (DataFrame.shape ⟨values⟩).2 = (values.map List.length).foldr Nat.max 0 := by
  refine ⟨?_, rfl, rfl⟩
  simp [read_data, h, setrow_hei, setrow_wid]

/-- Witness for C1: reading a concrete jagged two-row sheet sets
`row_hei = 2` and `row_wid = 2`. -/
theorem read_data_sets_shape_witness :
    remoteService.get [["a","b"],["c"]] defaultRange
      = ([["a","b"],["c"]], .ok [["a","b"],["c"]])
    ∧ (read_data remoteService [["a","b"],["c"]] (initWrapper "sid") defaultRange
        = ([["a","b"],["c"]],
           { initWrapper "sid" with
               row_hei := some (DataFrame.shape ⟨[["a","b"],["c"]]⟩).1,
               row_wid := some (DataFrame.shape ⟨[["a","b"],["c"]]⟩).2 },
           [Request.getValues (initWrapper "sid").SPREADSHEET_ID defaultRange],
           .frame ⟨[["a","b"],["c"]]⟩)
      ∧ (DataFrame.shape (⟨[["a","b"],["c"]]⟩ : DataFrame)).1 = [["a","b"],["c"]].length
      ∧ (DataFrame.shape (⟨[["a","b"],["c"]]⟩ : DataFrame)).2
          = ([["a","b"],["c"]].map List.length).foldr Nat.max 0) :=
  ⟨rfl,
   read_data_sets_shape remoteService [["a","b"],["c"]] [["a","b"],["c"]]
     (initWrapper "sid") defaultRange [["a","b"],["c"]] rfl⟩

/-- C7: when the remote get-values request fails, `read_data` fails with the
service's error object itself (carrying its error detail), leaves the cached
dimensions untouched, and issues exactly one remote request — no retry. -/
theorem read_data_failure_no_retry {σ : Type} (svc : Service σ) (s s1 : σ)
    (self : GoogleSheetsWrapper) (range : String) (err : HttpError)
    (h : svc.get s range = (s1, .error err)) :
    read_data svc s self range
      = (s1, self, [Request.getValues self.SPREADSHEET_ID range], .error err) := by
  simp [read_data, h]

/-- Witness for C7: a failing backend makes a concrete read fail with that
backend's error after a single request. -/
theorem read_data_failure_no_retry_witness :
    flakyService.get ([] : RemoteSheet) defaultRange
      = (([] : RemoteSheet), .error ⟨"backendError"⟩)
    ∧ read_data flakyService ([] : RemoteSheet) (initWrapper "sid") defaultRange
        = (([] : RemoteSheet), initWrapper "sid",
           [Request.getValues (initWrapper "sid").SPREADSHEET_ID defaultRange],
           .error ⟨"backendError"⟩) :=
  ⟨rfl,
   read_data_failure_no_retry flakyService ([] : RemoteSheet) ([] : RemoteSheet)
     (initWrapper "sid") defaultRange ⟨"backendError"⟩ rfl⟩

/-- C8: two consecutive `read_data` calls over the same range against an
unchanged remote sheet, with no intervening mutation, return structurally
equal results (and leave the client in the same state). -/
theorem read_data_idempotent (sheet : RemoteSheet) (self : GoogleSheetsWrapper)
    (range : String) :
    (read_data remoteService (read_data remoteService sheet self range).1
        (read_data remoteService sheet self range).2.1 range).2.2.2
      = (read_data remoteService sheet self range).2.2.2
    ∧ (read_data remoteService (read_data remoteService sheet self range).1
        (read_data remoteService sheet self range).2.1 range).2.1
      = (read_data remoteService sheet self range).2.1 := by
  cases h : parseRange range <;>
    simp [read_data, remoteService, serveGet, h, setrow_hei, setrow_wid]

/-- A remote in outage: every update-values request fails (gets are served
normally). -/
def downService : Service RemoteSheet :=
  { get := serveGet, update := fun s _ _ _ => (s, .error ⟨"quotaExceeded"⟩) }

/-- C4: when the remote update call of a mutating operation fails, the
caught error object itself is the operation's normal return value (the call
does not raise), and an error value is distinguishable from any success
response. -/
theorem mutating_failure_returned_not_raised {σ : Type} (svc : Service σ) :
    (∀ (s s1 : σ) (self : GoogleSheetsWrapper) (values : List Cell) (vio : String)
        (n : Nat) (err : HttpError),
      self.row_hei = some n →
      svc.update s ("a" ++ toString (n + 1)) vio [values] = (s1, .error err) →
      create_data svc s self values vio
        = (s1, self,
           [Request.updateValues self.SPREADSHEET_ID ("a" ++ toString (n + 1)) vio [values]],
           .ok (.error err)))
    ∧ (∀ (s s1 : σ) (self : GoogleSheetsWrapper) (range : String)
        (values : List Cell) (vio : String) (err : HttpError),
      svc.update s range vio [values] = (s1, .error err) →
      update_data svc s self range values vio
        = (s1, self,
           [Request.updateValues self.SPREADSHEET_ID range vio [values]],
           .ok (.error err)))
    ∧ (∀ (s s1 : σ) (self : GoogleSheetsWrapper) (range : String)
        (w : Nat) (err : HttpError),
      self.row_wid = some w →
      svc.update s range "USER_ENTERED" [List.replicate w ""] = (s1, .error err) →
      delete_data svc s self range
        = (s1, self,
           [Request.updateValues self.SPREADSHEET_ID range "USER_ENTERED" [List.replicate w ""]],
           .ok (.error err)))
    ∧ (∀ (err : HttpError) (resp : UpdateResp), MutResult.error err ≠ MutResult.response resp) := by
  refine ⟨?_, ?_, ?_, ?_⟩
  · intro s s1 self values vio n err h1 h2
    simp [create_data, h1, h2]
  · intro s s1 self range values vio err h
    simp [update_data, h]
  · intro s s1 self range w err h1 h2
    simp [delete_data, h1, h2]
  · intro err resp hc
    exact MutResult.noConfusion hc

/-- Witness for C4: against a remote in outage, a concrete `update_data`
call returns the outage error as its result value. -/
theorem mutating_failure_returned_not_raised_witness :
    downService.update sheet34 "Sheet1!a1:a1" "RAW" [["hello"]]
      = (sheet34, .error ⟨"quotaExceeded"⟩)
    ∧ update_data downService sheet34 self34 "Sheet1!a1:a1" ["hello"] "RAW"
        = (sheet34, self34,
           [Request.updateValues self34.SPREADSHEET_ID "Sheet1!a1:a1" "RAW" [["hello"]]],
           .ok (.error ⟨"quotaExceeded"⟩)) :=
  ⟨rfl,
   (mutating_failure_returned_not_raised downService).2.1 sheet34 sheet34 self34
     "Sheet1!a1:a1" ["hello"] "RAW" ⟨"quotaExceeded"⟩ rfl⟩

/-- C10: when a mutating operation's remote write succeeds but its trailing
refresh read fails, the operation still returns the write's success
response, the refresh failure is swallowed, and `row_hei` / `row_wid` retain
exactly their pre-call values. -/
theorem mutation_swallows_refresh_failure {σ : Type} (svc : Service σ) :
    (∀ (s s1 s2 : σ) (self : GoogleSheetsWrapper) (values : List Cell) (vio : String)
        (n : Nat) (resp : UpdateResp) (err : HttpError),
      self.row_hei = some n →
      svc.update s ("a" ++ toString (n + 1)) vio [values] = (s1, .ok resp) →
      svc.get s1 defaultRange = (s2, .error err) →
      create_data svc s self values vio
        = (s2, self,
           [Request.updateValues self.SPREADSHEET_ID ("a" ++ toString (n + 1)) vio [values],
            Request.getValues self.SPREADSHEET_ID defaultRange],
           .ok (.response resp)))
    ∧ (∀ (s s1 s2 : σ) (self : GoogleSheetsWrapper) (range : String)
        (values : List Cell) (vio : String) (resp : UpdateResp) (err : HttpError),
      svc.update s range vio [values] = (s1, .ok resp) →
      svc.get s1 defaultRange = (s2, .error err) →
      update_data svc s self range values vio
        = (s2, self,
           [Request.updateValues self.SPREADSHEET_ID range vio [values],
            Request.getValues self.SPREADSHEET_ID defaultRange],
           .ok (.response resp)))
    ∧ (∀ (s s1 s2 : σ) (self : GoogleSheetsWrapper) (range : String)
        (w : Nat) (resp : UpdateResp) (err : HttpError),
      self.row_wid = some w →
      svc.update s range "USER_ENTERED" [List.replicate w ""] = (s1, .ok resp) →
      svc.get s1 defaultRange = (s2, .error err) →
      delete_data svc s self range
        = (s2, self,
           [Request.updateValues self.SPREADSHEET_ID range "USER_ENTERED" [List.replicate w ""],
            Request.getValues self.SPREADSHEET_ID defaultRange],
           .ok (.response resp))) := by
  refine ⟨?_, ?_, ?_⟩
  · intro s s1 s2 self values vio n resp err h1 h2 h3
    simp [create_data, read_data, h1, h2, h3]
  · intro s s1 s2 self range values vio resp err h2 h3
    simp [update_data, read_data, h2, h3]
  · intro s s1 s2 self range w resp err h1 h2 h3
    simp [delete_data, read_data, h1, h2, h3]

/-- Witness for C10: a concrete append whose refresh fails still returns the
write's success response and keeps the pre-call dimensions. -/
theorem mutation_swallows_refresh_failure_witness :
    (⟨"sid", some 1, some 2⟩ : GoogleSheetsWrapper).row_hei = some 1
    ∧ flakyService.update [["a","b"]] ("a" ++ toString (1 + 1)) "USER_ENTERED" [["c","d"]]
        = ([["a","b"],["c","d"]], .ok ⟨"updatedRange a2"⟩)
    ∧ flakyService.get [["a","b"],["c","d"]] defaultRange
        = ([["a","b"],["c","d"]], .error ⟨"backendError"⟩)
    ∧ create_data flakyService [["a","b"]] ⟨"sid", some 1, some 2⟩ ["c","d"] "USER_ENTERED"
        = ([["a","b"],["c","d"]], ⟨"sid", some 1, some 2⟩,
           [Request.updateValues "sid" ("a" ++ toString (1 + 1)) "USER_ENTERED" [["c","d"]],
            Request.getValues "sid" defaultRange],
           .ok (.response ⟨"updatedRange a2"⟩)) :=
  ⟨rfl, rfl, rfl,
   (mutation_swallows_refresh_failure flakyService).1 [["a","b"]] [["a","b"],["c","d"]]
     [["a","b"],["c","d"]] ⟨"sid", some 1, some 2⟩ ["c","d"] "USER_ENTERED" 1
     ⟨"updatedRange a2"⟩ ⟨"backendError"⟩ rfl rfl rfl⟩

/-- Counterexample to C2 as stated: a `create_data` call against a remote
whose trailing refresh read fails returns the write's success response (a
successful mutating call from the caller's view), yet `row_hei` still holds
its pre-call value `1` while the remote state as of the trailing refresh
has 2 rows under the default range — the cached dimensions reflect a state
older than the call. -/
theorem mutation_refresh_failure_stale_counts_cex :
    create_data flakyService [["a","b"]] ⟨"sid", some 1, some 2⟩ ["c","d"] "USER_ENTERED"
      = ([["a","b"],["c","d"]], ⟨"sid", some 1, some 2⟩,
         [Request.updateValues "sid" "a2" "USER_ENTERED" [["c","d"]],
          Request.getValues "sid" defaultRange],
         .ok (.response ⟨"updatedRange a2"⟩))
    ∧ (create_data flakyService [["a","b"]] ⟨"sid", some 1, some 2⟩ ["c","d"] "USER_ENTERED").2.1.row_hei
        ≠ some (DataFrame.shape
            ⟨getValuesSpec
              (create_data flakyService [["a","b"]] ⟨"sid", some 1, some 2⟩ ["c","d"] "USER_ENTERED").1
              ⟨⟨1, none⟩, some ⟨26, none⟩⟩⟩).1 := by
  constructor
  · decide
  · decide

/-- C2 as amended: every mutating operation whose remote write succeeds
performs its trailing refresh read before returning (the get-values request
over the default range is always issued), and when that refresh read also
succeeds the cached dimensions equal the shape of the refreshed table; when
the refresh read fails they retain their pre-call values. -/
theorem mutation_refreshes_before_return {σ : Type} (svc : Service σ) :
    (∀ (s s1 s2 : σ) (self : GoogleSheetsWrapper) (values : List Cell) (vio : String)
        (n : Nat) (resp : UpdateResp) (vals : List (List Cell)),
      self.row_hei = some n →
      svc.update s ("a" ++ toString (n + 1)) vio [values] = (s1, .ok resp) →
      svc.get s1 defaultRange = (s2, .ok vals) →
      create_data svc s self values vio
        = (s2,
           { self with row_hei := some (DataFrame.shape ⟨vals⟩).1,
                       row_wid := some (DataFrame.shape ⟨vals⟩).2 },
           [Request.updateValues self.SPREADSHEET_ID ("a" ++ toString (n + 1)) vio [values],
            Request.getValues self.SPREADSHEET_ID defaultRange],
           .ok (.response resp)))
    ∧ (∀ (s s1 s2 : σ) (self : GoogleSheetsWrapper) (range : String)
        (values : List Cell) (vio : String) (resp : UpdateResp) (vals : List (List Cell)),
      svc.update s range vio [values] = (s1, .ok resp) →
      svc.get s1 defaultRange = (s2, .ok vals) →
      update_data svc s self range values vio
        = (s2,
           { self with row_hei := some (DataFrame.shape ⟨vals⟩).1,
                       row_wid := some (DataFrame.shape ⟨vals⟩).2 },
           [Request.updateValues self.SPREADSHEET_ID range vio [values],
            Request.getValues self.SPREADSHEET_ID defaultRange],
           .ok (.response resp)))
    ∧ (∀ (s s1 s2 : σ) (self : GoogleSheetsWrapper) (range : String)
        (w : Nat) (resp : UpdateResp) (vals : List (List Cell)),
      self.row_wid = some w →
      svc.update s range "USER_ENTERED" [List.replicate w ""] = (s1, .ok resp) →
      svc.get s1 defaultRange = (s2, .ok vals) →
      delete_data svc s self range
        = (s2,
           { self with row_hei := some (DataFrame.shape ⟨vals⟩).1,
                       row_wid := some (DataFrame.shape ⟨vals⟩).2 },
           [Request.updateValues self.SPREADSHEET_ID range "USER_ENTERED" [List.replicate w ""],
            Request.getValues self.SPREADSHEET_ID defaultRange],
           .ok (.response resp))) := by
  refine ⟨?_, ?_, ?_⟩
  · intro s s1 s2 self values vio n resp vals h1 h2 h3
    simp [create_data, read_data, h1, h2, h3, setrow_hei, setrow_wid]
  · intro s s1 s2 self range values vio resp vals h2 h3
    simp [update_data, read_data, h2, h3, setrow_hei, setrow_wid]
  · intro s s1 s2 self range w resp vals h1 h2 h3
    simp [delete_data, read_data, h1, h2, h3, setrow_hei, setrow_wid]

/-- Witness for the amended C2: the scenario append refreshes its dimensions
from its own trailing read. -/
theorem mutation_refreshes_before_return_witness :
    self34.row_hei = some 3
    ∧ remoteService.update sheet34 ("a" ++ toString (3 + 1)) "USER_ENTERED" [["x","y","z","w"]]
        = (sheet44, .ok ⟨"updatedRange a4"⟩)
    ∧ remoteService.get sheet44 defaultRange = (sheet44, .ok sheet44)
    ∧ create_data remoteService sheet34 self34 ["x","y","z","w"] "USER_ENTERED"
        = (sheet44,
           { self34 with row_hei := some (DataFrame.shape ⟨sheet44⟩).1,
                         row_wid := some (DataFrame.shape ⟨sheet44⟩).2 },
           [Request.updateValues self34.SPREADSHEET_ID ("a" ++ toString (3 + 1)) "USER_ENTERED" [["x","y","z","w"]],
            Request.getValues self34.SPREADSHEET_ID defaultRange],
           .ok (.response ⟨"updatedRange a4"⟩)) :=
  ⟨rfl, rfl, rfl,
   (mutation_refreshes_before_return remoteService).1 sheet34 sheet44 sheet44 self34
     ["x","y","z","w"] "USER_ENTERED" 3 ⟨"updatedRange a4"⟩ sheet44 rfl rfl rfl⟩

/-- C3: `create_data` wraps its values as a single-row batch and targets the
range `a{row_hei+1}` of column A whenever `row_hei` is known; in the spec
scenario (3 rows, 4 columns) the appended row lands at row 4 and the
post-refresh `row_hei` is 4. -/
theorem create_data_targets_next_row :
    (∀ {σ : Type} (svc : Service σ) (s : σ) (self : GoogleSheetsWrapper)
        (values : List Cell) (vio : String) (n : Nat),
      self.row_hei = some n →
      (create_data svc s self values vio).2.2.1.head?
        = some (Request.updateValues self.SPREADSHEET_ID ("a" ++ toString (n + 1)) vio [values]))
    ∧ create_data remoteService sheet34 self34 ["x","y","z","w"] "USER_ENTERED"
        = (sheet44, self44,
           [Request.updateValues "sid" "a4" "USER_ENTERED" [["x","y","z","w"]],
            Request.getValues "sid" defaultRange],
           .ok (.response ⟨"updatedRange a4"⟩)) := by
  constructor
  · intro σ svc s self values vio n h
    rcases hu : svc.update s ("a" ++ toString (n + 1)) vio [values] with ⟨s1, r⟩
    cases r with
    | ok resp =>
        rcases hr : read_data svc s1 self defaultRange with ⟨s2, self2, reqs, res⟩
        simp [create_data, h, hu, hr]
    | error err => simp [create_data, h, hu]
  · decide

/-- Witness for C3: in the scenario state the first issued request targets
range `a4` with the single-row batch. -/
theorem create_data_targets_next_row_witness :
    self34.row_hei = some 3
    ∧ (create_data remoteService sheet34 self34 ["x","y","z","w"] "USER_ENTERED").2.2.1.head?
        = some (Request.updateValues self34.SPREADSHEET_ID ("a" ++ toString (3 + 1))
            "USER_ENTERED" [["x","y","z","w"]]) :=
  ⟨rfl,
   create_data_targets_next_row.1 remoteService sheet34 self34 ["x","y","z","w"]
     "USER_ENTERED" 3 rfl⟩

/-- Counterexample to C5 as stated: calling `create_data` while `row_hei` is
unset does not complete and writes nothing — the Python addition
`None + 1` raises an uncaught `TypeError`, the remote is never contacted
(no request issued, so nothing is written to `a1`), and no normal value is
returned. -/
theorem create_data_unset_row_hei_cex :
    create_data remoteService ([] : RemoteSheet) (initWrapper "sid") ["x"] "USER_ENTERED"
      = (([] : RemoteSheet), initWrapper "sid", ([] : List Request), .typeError)
    ∧ (∀ m : MutResult, (PyResult.typeError : PyResult MutResult) ≠ .ok m) :=
  ⟨by decide, fun m hc => PyResult.noConfusion hc⟩

/-- C5 as amended: when `row_hei` is unset (`None`) the call raises an
uncaught `TypeError` before issuing any remote request; the target range is
always `a{row_hei+1}` computed from the held value, so it is `a1` exactly
when `row_hei` holds `0`. -/
theorem create_data_unset_typeError_zero_targets_a1 :
    (∀ {σ : Type} (svc : Service σ) (s : σ) (self : GoogleSheetsWrapper)
        (values : List Cell) (vio : String),
      self.row_hei = none →
      create_data svc s self values vio = (s, self, [], .typeError))
    ∧ (∀ {σ : Type} (svc : Service σ) (s : σ) (self : GoogleSheetsWrapper)
        (values : List Cell) (vio : String),
      self.row_hei = some 0 →
      (create_data svc s self values vio).2.2.1.head?
        = some (Request.updateValues self.SPREADSHEET_ID "a1" vio [values])) := by
  constructor
  · intro σ svc s self values vio h
    simp [create_data, h]
  · intro σ svc s self values vio h
    have ha : ("a" ++ toString (0 + 1) : String) = "a1" := rfl
    have := create_data_targets_next_row.1 svc s self values vio 0 h
    rwa [ha] at this

/-- Witness for the amended C5: an unset client TypeErrors, a zero-count
client targets `a1`. -/
theorem create_data_unset_typeError_zero_targets_a1_witness :
    (initWrapper "sid").row_hei = none
    ∧ create_data remoteService ([] : RemoteSheet) (initWrapper "sid") ["x"] "USER_ENTERED"
        = (([] : RemoteSheet), initWrapper "sid", [], .typeError)
    ∧ (⟨"sid", some 0, none⟩ : GoogleSheetsWrapper).row_hei = some 0
    ∧ (create_data remoteService ([] : RemoteSheet) (⟨"sid", some 0, none⟩ : GoogleSheetsWrapper)
        ["x"] "USER_ENTERED").2.2.1.head?
        = some (Request.updateValues (⟨"sid", some 0, none⟩ : GoogleSheetsWrapper).SPREADSHEET_ID
            "a1" "USER_ENTERED" [["x"]]) :=
  ⟨rfl,
   create_data_unset_typeError_zero_targets_a1.1 remoteService ([] : RemoteSheet)
     (initWrapper "sid") ["x"] "USER_ENTERED" rfl,
   rfl,
   create_data_unset_typeError_zero_targets_a1.2 remoteService ([] : RemoteSheet)
     (⟨"sid", some 0, none⟩ : GoogleSheetsWrapper) ["x"] "USER_ENTERED" rfl⟩

/-- C6: with `row_wid` known, `delete_data(range)` sends exactly one row of
`row_wid` empty-string cells into the given range with the `USER_ENTERED`
input mode and then refreshes over the default range; a single-row write
within the sheet preserves the number of rows (overwrite, not removal), a
blank row overwrites an old row of no greater width cell for cell, and the
spec scenario blanks row 2 of the 4-row sheet in place. -/
theorem delete_data_blank_overwrite :
    (∀ {σ : Type} (svc : Service σ) (s s1 : σ) (self : GoogleSheetsWrapper)
        (range : String) (w : Nat) (resp : UpdateResp),
      self.row_wid = some w →
      svc.update s range "USER_ENTERED" [List.replicate w ""] = (s1, .ok resp) →
      (delete_data svc s self range).2.2.1
        = [Request.updateValues self.SPREADSHEET_ID range "USER_ENTERED" [List.replicate w ""],
           Request.getValues self.SPREADSHEET_ID defaultRange]
      ∧ (List.replicate w ("" : Cell)).length = w
      ∧ ∀ cell ∈ List.replicate w ("" : Cell), cell = "")
    ∧ (∀ (sheet : RemoteSheet) (r c : Nat) (row : List Cell),
      1 ≤ r → r ≤ sheet.length →
      (applyWrite sheet r c [row]).length = sheet.length)
    ∧ (∀ (old : List Cell) (w : Nat), old.length ≤ w →
      writeRow old 1 (List.replicate w "") = List.replicate w "")
    ∧ delete_data remoteService sheet44 self44 "Sheet1!a2:d2"
        = ([["a1","b1","c1","d1"], ["","","",""], ["a3","b3","c3","d3"], ["x","y","z","w"]],
           self44,
           [Request.updateValues "sid" "Sheet1!a2:d2" "USER_ENTERED" [List.replicate 4 ""],
            Request.getValues "sid" defaultRange],
           .ok (.response ⟨"updatedRange Sheet1!a2:d2"⟩)) := by
  refine ⟨?_, ?_, ?_, ?_⟩
  · intro σ svc s s1 self range w resp h1 h2
    refine ⟨?_, List.length_replicate w "", fun cell hc => List.eq_of_mem_replicate hc⟩
    rcases hr : read_data svc s1 self defaultRange with ⟨s2, self2, reqs, res⟩
    have hreqs : reqs = [Request.getValues self.SPREADSHEET_ID defaultRange] := by
      rcases hg : svc.get s1 defaultRange with ⟨s2', r⟩
      cases r <;> simp [read_data, hg] at hr <;> exact hr.2.2.1.symm
    simp [delete_data, h1, h2, hr, hreqs]
  · intro sheet r c row h1 h2
    simp only [applyWrite, List.length_append, List.length_take, List.length_drop,
      List.length_zipWith, List.length_replicate, List.length_cons, List.length_nil]
    omega
  · intro old w h
    simp only [writeRow, Nat.sub_self, Nat.zero_add, List.take_zero, List.nil_append]
    rw [List.drop_eq_nil_of_le, List.append_nil]
    simp only [List.length_append, List.length_replicate]
    omega
  · decide

/-- Witness for C6: the scenario delete issues the blank-row write into
`Sheet1!a2:d2` followed by the default-range refresh. -/
theorem delete_data_blank_overwrite_witness :
    self44.row_wid = some 4
    ∧ remoteService.update sheet44 "Sheet1!a2:d2" "USER_ENTERED" [List.replicate 4 ""]
        = ([["a1","b1","c1","d1"], ["","","",""], ["a3","b3","c3","d3"], ["x","y","z","w"]],
           .ok ⟨"updatedRange Sheet1!a2:d2"⟩)
    ∧ ((delete_data remoteService sheet44 self44 "Sheet1!a2:d2").2.2.1
        = [Request.updateValues self44.SPREADSHEET_ID "Sheet1!a2:d2" "USER_ENTERED" [List.replicate 4 ""],
           Request.getValues self44.SPREADSHEET_ID defaultRange]
      ∧ (List.replicate 4 ("" : Cell)).length = 4
      ∧ ∀ cell ∈ List.replicate 4 ("" : Cell), cell = "") :=
  ⟨rfl, rfl,
   delete_data_blank_overwrite.1 remoteService sheet44
     [["a1","b1","c1","d1"], ["","","",""], ["a3","b3","c3","d3"], ["x","y","z","w"]]
     self44 "Sheet1!a2:d2" 4 ⟨"updatedRange Sheet1!a2:d2"⟩ rfl rfl⟩

/-- C9: whenever a mutating operation's remote write succeeds, the trailing
refresh issues a get-values request over the fixed default range
`Sheet1!a:z`, whatever range the mutation targeted; and since the service
clips a get over `a:z` to columns 1..26, the refreshed `row_wid` never
exceeds 26. -/
theorem mutation_refresh_default_range {σ : Type} (svc : Service σ) :
    (∀ (s s1 : σ) (self : GoogleSheetsWrapper) (values : List Cell) (vio : String)
        (n : Nat) (resp : UpdateResp),
      self.row_hei = some n →
      svc.update s ("a" ++ toString (n + 1)) vio [values] = (s1, .ok resp) →
      (create_data svc s self values vio).2.2.1
        = [Request.updateValues self.SPREADSHEET_ID ("a" ++ toString (n + 1)) vio [values],
           Request.getValues self.SPREADSHEET_ID defaultRange])
    ∧ (∀ (s s1 : σ) (self : GoogleSheetsWrapper) (range : String)
        (values : List Cell) (vio : String) (resp : UpdateResp),
      svc.update s range vio [values] = (s1, .ok resp) →
      (update_data svc s self range values vio).2.2.1
        = [Request.updateValues self.SPREADSHEET_ID range vio [values],
           Request.getValues self.SPREADSHEET_ID defaultRange])
    ∧ (∀ (s s1 : σ) (self : GoogleSheetsWrapper) (range : String)
        (w : Nat) (resp : UpdateResp),
      self.row_wid = some w →
      svc.update s range "USER_ENTERED" [List.replicate w ""] = (s1, .ok resp) →
      (delete_data svc s self range).2.2.1
        = [Request.updateValues self.SPREADSHEET_ID range "USER_ENTERED" [List.replicate w ""],
           Request.getValues self.SPREADSHEET_ID defaultRange])
    ∧ (∀ (s s1 s2 : σ) (self : GoogleSheetsWrapper) (values : List Cell) (vio : String)
        (n : Nat) (resp : UpdateResp) (sheet : RemoteSheet),
      self.row_hei = some n →
      svc.update s ("a" ++ toString (n + 1)) vio [values] = (s1, .ok resp) →
      svc.get s1 defaultRange = (s2, .ok (getValuesSpec sheet ⟨⟨1, none⟩, some ⟨26, none⟩⟩)) →
      ∃ w, (create_data svc s self values vio).2.1.row_wid = some w ∧ w ≤ 26)
    ∧ (∀ (s s1 s2 : σ) (self : GoogleSheetsWrapper) (range : String)
        (values : List Cell) (vio : String) (resp : UpdateResp) (sheet : RemoteSheet),
      svc.update s range vio [values] = (s1, .ok resp) →
      svc.get s1 defaultRange = (s2, .ok (getValuesSpec sheet ⟨⟨1, none⟩, some ⟨26, none⟩⟩)) →
      ∃ w, (update_data svc s self range values vio).2.1.row_wid = some w ∧ w ≤ 26)
    ∧ (∀ (s s1 s2 : σ) (self : GoogleSheetsWrapper) (range : String)
        (w0 : Nat) (resp : UpdateResp) (sheet : RemoteSheet),
      self.row_wid = some w0 →
      svc.update s range "USER_ENTERED" [List.replicate w0 ""] = (s1, .ok resp) →
      svc.get s1 defaultRange = (s2, .ok (getValuesSpec sheet ⟨⟨1, none⟩, some ⟨26, none⟩⟩)) →
      ∃ w, (delete_data svc s self range).2.1.row_wid = some w ∧ w ≤ 26) := by
  refine ⟨?_, ?_, ?_, ?_, ?_, ?_⟩
  · intro s s1 self values vio n resp h1 h2
    rcases hg : svc.get s1 defaultRange with ⟨s2, r⟩
    cases r <;> simp [create_data, read_data, h1, h2, hg]
  · intro s s1 self range values vio resp h2
    rcases hg : svc.get s1 defaultRange with ⟨s2, r⟩
    cases r <;> simp [update_data, read_data, h2, hg]
  · intro s s1 self range w resp h1 h2
    rcases hg : svc.get s1 defaultRange with ⟨s2, r⟩
    cases r <;> simp [delete_data, read_data, h1, h2, hg]
  · intro s s1 s2 self values vio n resp sheet h1 h2 h3
    refine ⟨_, ?_, getValuesSpec_az_width_le sheet⟩
    simp [create_data, read_data, h1, h2, h3, setrow_hei, setrow_wid, DataFrame.shape]
  · intro s s1 s2 self range values vio resp sheet h2 h3
    refine ⟨_, ?_, getValuesSpec_az_width_le sheet⟩
    simp [update_data, read_data, h2, h3, setrow_hei, setrow_wid, DataFrame.shape]
  · intro s s1 s2 self range w0 resp sheet h1 h2 h3
    refine ⟨_, ?_, getValuesSpec_az_width_le sheet⟩
    simp [delete_data, read_data, h1, h2, h3, setrow_hei, setrow_wid, DataFrame.shape]

/-- Witness for C9: the scenario append's trace refreshes over the default
range, and the refreshed width is at most 26. -/
theorem mutation_refresh_default_range_witness :
    self34.row_hei = some 3
    ∧ remoteService.update sheet34 ("a" ++ toString (3 + 1)) "USER_ENTERED" [["x","y","z","w"]]
        = (sheet44, .ok ⟨"updatedRange a4"⟩)
    ∧ remoteService.get sheet44 defaultRange
        = (sheet44, .ok (getValuesSpec sheet44 ⟨⟨1, none⟩, some ⟨26, none⟩⟩))
    ∧ (create_data remoteService sheet34 self34 ["x","y","z","w"] "USER_ENTERED").2.2.1
        = [Request.updateValues self34.SPREADSHEET_ID ("a" ++ toString (3 + 1))
             "USER_ENTERED" [["x","y","z","w"]],
           Request.getValues self34.SPREADSHEET_ID defaultRange]
    ∧ ∃ w, (create_data remoteService sheet34 self34 ["x","y","z","w"] "USER_ENTERED").2.1.row_wid
        = some w ∧ w ≤ 26 :=
  ⟨rfl, rfl, rfl,
   (mutation_refresh_default_range remoteService).1 sheet34 sheet44 self34
     ["x","y","z","w"] "USER_ENTERED" 3 ⟨"updatedRange a4"⟩ rfl rfl,
   (mutation_refresh_default_range remoteService).2.2.2.1 sheet34 sheet44 sheet44 self34
     ["x","y","z","w"] "USER_ENTERED" 3 ⟨"updatedRange a4"⟩ sheet44 rfl rfl rfl⟩
